import Mathlib

/-!
A shallow embedding of the FPGA device-abstraction layer in
`pkg/fpga/intel_fpga_linux.go`: the FME/Port object model, ioctl request
construction, sysfs attribute resolution and the partial-reconfiguration
sequence, together with theorems checking the specification's claims
against it.

Stateful Go methods become Lean functions from the receiver (and an
environment of external collaborators) to a triple of result, updated
receiver and a trace of observable side effects.  Machine integers are
`Nat` with explicit `% 2 ^ w` casts where Go converts.
-/

set_option autoImplicit false

/-- A Go `error` value; only the message is observable in this layer. -/
structure GoError where
  msg : String
deriving DecidableEq, Repr

/-- Outcome of a Go call that may end in a runtime panic. -/
inductive GoOutcome (α : Type) where
  | ok (a : α)
  | panicked (msg : String)
deriving DecidableEq, Repr

/-- Decimal digit value of a character, `none` when it is not a digit. -/
def decDigitVal (c : Char) : Option Nat :=
  if '0' ≤ c ∧ c ≤ '9' then some (c.toNat - '0'.toNat) else none

/-- Main loop of Go `strconv.ParseUint` for base 10: the first non-digit
stops with `(0, syntax error)`, the first accumulation past `maxVal` stops
with `(maxVal, range error)`. -/
def goParseUintLoop : List Char → Nat → Nat → Nat × Option GoError
  | [], _, n => (n, none)
  | c :: rest, maxVal, n =>
    match decDigitVal c with
    | none => (0, some ⟨"invalid syntax"⟩)
    | some d =>
      let n1 := n * 10 + d
      if maxVal < n1 then (maxVal, some ⟨"value out of range"⟩)
      else goParseUintLoop rest maxVal n1

/-- Go `strconv.ParseUint(s, 10, bitSize)`; the empty string is a syntax
error returning 0. -/
def goParseUint (s : String) (bitSize : Nat) : Nat × Option GoError :=
  if s = "" then (0, some ⟨"invalid syntax"⟩)
  else goParseUintLoop s.data (2 ^ bitSize - 1) 0

/-- Go `path/filepath.Base` on Unix: the empty path gives ".", trailing
slashes are stripped, the last path element is returned, and an all-slash
path gives "/". -/
def filepathBase (path : String) : String :=
  if path = "" then "."
  else
    match path.data.reverse.dropWhile (fun c => c == '/') with
    | [] => "/"
    | c :: cs => String.mk ((c :: cs).takeWhile (fun x => x != '/')).reverse

/-- Model of Go `filepath.Join` for the two-component joins in this file:
plain separator concatenation (no claim depends on path cleaning). -/
def filepathJoin (a b : String) : String := a ++ "/" ++ b

/-- Go conversion `uint32(n)`. -/
def uint32cast (n : Nat) : Nat := n % 2 ^ 32

/-- Go `math.MaxUint32`. -/
def maxUint32 : Nat := 2 ^ 32 - 1

/-- Ioctl opcodes used by this layer (mirrored from the kernel driver ABI). -/
inductive IoctlCmd where
  | FPGA_GET_API_VERSION
  | FPGA_CHECK_EXTENSION
  | FPGA_FME_PORT_PR
  | FPGA_FME_PORT_RELEASE
  | FPGA_FME_PORT_ASSIGN
  | FPGA_PORT_RESET
  | FPGA_PORT_GET_INFO
  | FPGA_PORT_GET_REGION_INFO
deriving DecidableEq, Repr

/-- Modelled from the spec: the PR request structure (its Go definition is
outside the sources shown): argument-size header, port id, buffer size
(u32 each) and buffer address (u64). -/
structure IntelFpgaFmePortPR where
  Argsz : Nat
  Port_id : Nat
  Buffer_size : Nat
  Buffer_address : Nat
deriving DecidableEq, Repr

/-- Modelled from the spec: the port-release request: size header and port
id, both u32. -/
structure IntelFpgaFmePortRelease where
  Argsz : Nat
  Id : Nat
deriving DecidableEq, Repr

/-- Modelled from the spec: the port-assign request: size header and port
id, both u32. -/
structure IntelFpgaFmePortAssign where
  Argsz : Nat
  Id : Nat
deriving DecidableEq, Repr

/-- Modelled from the spec: the port-info request/response: size header,
flags, region count and user-interrupt count, all u32. -/
structure IntelFpgaPortInfo where
  Argsz : Nat
  Flags : Nat
  Regions : Nat
  Umsgs : Nat
deriving DecidableEq, Repr

/-- Modelled from the spec: the region-info request/response: size header,
flags and region index (u32), offset and size (u64). -/
structure IntelFpgaPortRegionInfo where
  Argsz : Nat
  Flags : Nat
  Index : Nat
  Offset : Nat
  Size : Nat
deriving DecidableEq, Repr

/-- Modelled from the spec: exact byte size of `IntelFpgaFmePortPR` (three
u32 fields padded to the u64 alignment, then one u64). -/
def sizeofIntelFpgaFmePortPR : Nat := 24

/-- Modelled from the spec: exact byte size of `IntelFpgaFmePortRelease`. -/
def sizeofIntelFpgaFmePortRelease : Nat := 8

/-- Modelled from the spec: exact byte size of `IntelFpgaFmePortAssign`. -/
def sizeofIntelFpgaFmePortAssign : Nat := 8

/-- Modelled from the spec: exact byte size of `IntelFpgaPortInfo`. -/
def sizeofIntelFpgaPortInfo : Nat := 16

/-- Modelled from the spec: exact byte size of `IntelFpgaPortRegionInfo`
(three u32, u32 padding, two u64). -/
def sizeofIntelFpgaPortRegionInfo : Nat := 32

/-- The third argument handed to `ioctlDev`: either the literal 0 (no
payload) or a pointer to one of the request structures, identified here by
the structure's contents. -/
inductive IoctlArg where
  | nullArg
  | fmePortPR (v : IntelFpgaFmePortPR)
  | fmePortRelease (v : IntelFpgaFmePortRelease)
  | fmePortAssign (v : IntelFpgaFmePortAssign)
  | portInfo (v : IntelFpgaPortInfo)
  | portRegionInfo (v : IntelFpgaPortRegionInfo)
deriving DecidableEq, Repr

/-- Observable side effects of the layer, in program order. -/
inductive Event where
  | findSysFs (dev : String)
  | newPCI (sysfs : String)
  | readDir (dir : String) (files : List String)
  | evalSym (path : String)
  | ioctl (dev : String) (cmd : IoctlCmd) (arg : IoctlArg)
deriving DecidableEq, Repr

/-- The physical-function ancestor of an SR-IOV virtual function; by the
spec's invariant the chain is exactly one hop, so it carries no further
back-reference. -/
structure PCIDevicePhysFn where
  SysFsPath : String
deriving DecidableEq, Repr

/-- PCI device descriptor: sysfs path plus the optional physical-function
back-reference. -/
structure PCIDevice where
  SysFsPath : String
  PhysFn : Option PCIDevicePhysFn
deriving DecidableEq, Repr

/-- Alias for `PCIDevice`, usable inside namespaces where a structure field
of the same name shadows the type. -/
abbrev PCIDev := PCIDevice

/-- Modelled from the spec: the external collaborators of this layer that
live outside the sources shown — `FindSysFsDevice`, `NewPCIDevice`, the
attribute reads underlying `readFilesInDirectory`, `filepath.EvalSymlinks`,
the `checkPCIDeviceType` device-class check, and the raw `ioctlDev`
transport (with the driver-filled output of the two info requests). -/
structure Env where
  findSysFsDevice : String → Option String
  newPCIDevice : String → Option PCIDevice
  readAttr : String → String → Option String
  evalSymlinks : String → Option String
  checkFME : String → Bool
  checkPort : String → Bool
  ioctl : String → IoctlCmd → IoctlArg → Int × Option GoError
  portInfoOut : String → Nat × Nat × Nat
  regionInfoOut : String → Nat → Nat × Nat × Nat × Nat

/-- Modelled from the spec: `readFilesInDirectory` reads every named
attribute file under `dir` (trimmed) into the destination map and fails as
a whole if any one is missing (the set is read atomically). -/
def readFilesInDirectory (env : Env) (dir : String) (names : List String) :
    Option (String → String) × List Event :=
  if names.all (fun n => (env.readAttr dir n).isSome) then
    (some (fun n => (env.readAttr dir n).getD ""), [Event.readDir dir names])
  else
    (none, [Event.readDir dir names])

/-- Modelled from the spec: `ioctlDev` issues one ioctl against the device
node and surfaces the driver outcome verbatim; one trace event per call. -/
def ioctlDev (env : Env) (fd : String) (cmd : IoctlCmd) (arg : IoctlArg) :
    (Int × Option GoError) × List Event :=
  (env.ioctl fd cmd arg, [Event.ioctl fd cmd arg])

/-- Glob locating the FME subtree under a PCI function's sysfs directory. -/
def intelFpgaFmeGlobPCI : String := "fpga/intel-fpga-dev.*/intel-fpga-fme.*"

/-- IntelFpgaFME represents an Intel FPGA FME device.  Unset string fields
are the empty string and the unset PCI device is `none`, matching Go zero
values. -/
structure IntelFpgaFME where
  DevPath : String := ""
  SysFsPath : String := ""
  Name : String := ""
  PCIDevice : Option PCIDevice := none
  SocketID : String := ""
  Dev : String := ""
  CompatID : String := ""
  BitstreamID : String := ""
  BitstreamMetadata : String := ""
  PortsNum : String := ""
deriving DecidableEq, Repr

/-- FME Close: returns nil and has no effect. -/
def IntelFpgaFME.Close (_f : IntelFpgaFME) : Option GoError := none

/-- GetDevPath returns the path to the device node. -/
def IntelFpgaFME.GetDevPath (f : IntelFpgaFME) : String := f.DevPath

/-- GetSysFsPath: returns the cached sysfs entry, otherwise resolves it via
`FindSysFsDevice`; a resolution failure returns "" without caching. -/
def IntelFpgaFME.GetSysFsPath (f : IntelFpgaFME) (env : Env) :
    String × IntelFpgaFME × List Event :=
  if f.SysFsPath ≠ "" then (f.SysFsPath, f, [])
  else
    match env.findSysFsDevice f.DevPath with
    | none => ("", f, [Event.findSysFs f.DevPath])
    | some sysfs => (sysfs, { f with SysFsPath := sysfs }, [Event.findSysFs f.DevPath])

/-- GetName: returns the cached name, otherwise derives and caches the
basename of the sysfs entry. -/
def IntelFpgaFME.GetName (f : IntelFpgaFME) (env : Env) :
    String × IntelFpgaFME × List Event :=
  if f.Name ≠ "" then (f.Name, f, [])
  else
    let r := f.GetSysFsPath env
    (filepathBase r.1, { r.2.1 with Name := filepathBase r.1 }, r.2.2)

/-- GetPCIDevice: returns the cached PCI device, otherwise resolves and
caches it from the sysfs path. -/
def IntelFpgaFME.GetPCIDevice (f : IntelFpgaFME) (env : Env) :
    Except GoError PCIDev × IntelFpgaFME × List Event :=
  match f.PCIDevice with
  | some pci => (Except.ok pci, f, [])
  | none =>
    let r := f.GetSysFsPath env
    match env.newPCIDevice r.1 with
    | none => (Except.error ⟨"NewPCIDevice failed"⟩, r.2.1, r.2.2 ++ [Event.newPCI r.1])
    | some pci =>
      (Except.ok pci, { r.2.1 with PCIDevice := some pci }, r.2.2 ++ [Event.newPCI r.1])

/-- The six FME attribute files read by `updateProperties`. -/
def fmeAttrNames : List String :=
  ["bitstream_id", "bitstream_metadata", "dev", "ports_num", "socket_id", "pr/interface_id"]

/-- FME updateProperties: resolves the PCI device and reads the FME
attribute set under its FME glob subtree. -/
def IntelFpgaFME.updateProperties (f : IntelFpgaFME) (env : Env) :
    Option GoError × IntelFpgaFME × List Event :=
  match f.GetPCIDevice env with
  | (Except.error e, f1, t) => (some e, f1, t)
  | (Except.ok pci, f1, t) =>
    let dir := filepathJoin pci.SysFsPath intelFpgaFmeGlobPCI
    match readFilesInDirectory env dir fmeAttrNames with
    | (none, t2) => (some ⟨"readFilesInDirectory failed"⟩, f1, t ++ t2)
    | (some m, t2) =>
      (none,
        { f1 with
          BitstreamID := m "bitstream_id"
          BitstreamMetadata := m "bitstream_metadata"
          Dev := m "dev"
          PortsNum := m "ports_num"
          SocketID := m "socket_id"
          CompatID := m "pr/interface_id" }, t ++ t2)

/-- GetPortsNum: populates the attribute set if `PortsNum` is unset, then
parses it; -1 on a failed read or a failed conversion. -/
def IntelFpgaFME.GetPortsNum (f : IntelFpgaFME) (env : Env) :
    Int × IntelFpgaFME × List Event :=
  let step :=
    if f.PortsNum = "" then
      let u := f.updateProperties env
      (u.1, u.2.1, u.2.2)
    else ((none : Option GoError), f, ([] : List Event))
  match step with
  | (some _, f1, t) => (-1, f1, t)
  | (none, f1, t) =>
    let p := goParseUint f1.PortsNum 32
    if p.2.isSome then (-1, f1, t) else ((p.1 : Int), f1, t)

/-- GetInterfaceUUID: populates the attribute set if `CompatID` is unset;
"" when that read fails. -/
def IntelFpgaFME.GetInterfaceUUID (f : IntelFpgaFME) (env : Env) :
    String × IntelFpgaFME × List Event :=
  if f.CompatID = "" then
    match f.updateProperties env with
    | (some _, f1, t) => ("", f1, t)
    | (none, f1, t) => (f1.CompatID, f1, t)
  else (f.CompatID, f, [])

/-- GetSocketID: an unset `SocketID` yields MaxUint32 and the "n/a" error
without any read; otherwise the stored string is parsed as u32. -/
def IntelFpgaFME.GetSocketID (f : IntelFpgaFME) :
    (Nat × Option GoError) × IntelFpgaFME × List Event :=
  if f.SocketID = "" then ((maxUint32, some ⟨"n/a"⟩), f, [])
  else
    let p := goParseUint f.SocketID 32
    ((uint32cast p.1, p.2), f, [])

/-- GetBitstreamID returns the stored field directly. -/
def IntelFpgaFME.GetBitstreamID (f : IntelFpgaFME) :
    String × IntelFpgaFME × List Event :=
  (f.BitstreamID, f, [])

/-- GetBitstreamMetadata returns the stored field directly. -/
def IntelFpgaFME.GetBitstreamMetadata (f : IntelFpgaFME) :
    String × IntelFpgaFME × List Event :=
  (f.BitstreamMetadata, f, [])

/-- PortPR (src lines 147-158): builds the PR request and issues the ioctl.
`addr` is the abstract machine address of the first bitstream byte; taking
it (`&bitstream[0]`) panics at run time when the slice is empty, and the
source has no length guard, so the empty case panics before any ioctl. -/
def IntelFpgaFME.PortPR (f : IntelFpgaFME) (env : Env) (port : Nat)
    (bitstream : List Nat) (addr : Nat) :
    GoOutcome (Option GoError) × List Event :=
  if bitstream = [] then
    (GoOutcome.panicked "runtime error: index out of range", [])
  else
    let value : IntelFpgaFmePortPR :=
      { Argsz := uint32cast sizeofIntelFpgaFmePortPR
        Port_id := uint32cast port
        Buffer_size := uint32cast bitstream.length
        Buffer_address := addr % 2 ^ 64 }
    let r := ioctlDev env f.DevPath IoctlCmd.FPGA_FME_PORT_PR (IoctlArg.fmePortPR value)
    (GoOutcome.ok r.1.2, r.2)

/-- PortRelease: builds the release request and issues the ioctl. -/
def IntelFpgaFME.PortRelease (f : IntelFpgaFME) (env : Env) (port : Nat) :
    Option GoError × List Event :=
  let value : IntelFpgaFmePortRelease :=
    { Argsz := uint32cast sizeofIntelFpgaFmePortRelease, Id := uint32cast port }
  let r := ioctlDev env f.DevPath IoctlCmd.FPGA_FME_PORT_RELEASE
    (IoctlArg.fmePortRelease value)
  (r.1.2, r.2)

/-- PortAssign: builds the assign request and issues the ioctl. -/
def IntelFpgaFME.PortAssign (f : IntelFpgaFME) (env : Env) (port : Nat) :
    Option GoError × List Event :=
  let value : IntelFpgaFmePortAssign :=
    { Argsz := uint32cast sizeofIntelFpgaFmePortAssign, Id := uint32cast port }
  let r := ioctlDev env f.DevPath IoctlCmd.FPGA_FME_PORT_ASSIGN
    (IoctlArg.fmePortAssign value)
  (r.1.2, r.2)

/-- Common zero-payload version query: the ioctl argument is the literal 0. -/
def commonIntelFpgaGetAPIVersion (env : Env) (fd : String) :
    (Int × Option GoError) × List Event :=
  ioctlDev env fd IoctlCmd.FPGA_GET_API_VERSION IoctlArg.nullArg

/-- Common zero-payload extension query: the ioctl argument is the literal 0. -/
def commonIntelFpgaCheckExtension (env : Env) (fd : String) :
    (Int × Option GoError) × List Event :=
  ioctlDev env fd IoctlCmd.FPGA_CHECK_EXTENSION IoctlArg.nullArg

/-- FME GetAPIVersion delegates to the common helper on its own handle. -/
def IntelFpgaFME.GetAPIVersion (f : IntelFpgaFME) (env : Env) :
    (Int × Option GoError) × List Event :=
  commonIntelFpgaGetAPIVersion env f.DevPath

/-- FME CheckExtension delegates to the common helper on its own handle. -/
def IntelFpgaFME.CheckExtension (f : IntelFpgaFME) (env : Env) :
    (Int × Option GoError) × List Event :=
  commonIntelFpgaCheckExtension env f.DevPath

/-- NewIntelFpgaFME: type-checks the device path, then populates the
attribute set; either failure aborts the construction. -/
def NewIntelFpgaFME (env : Env) (dev : String) :
    Except GoError IntelFpgaFME × List Event :=
  let fme : IntelFpgaFME := { DevPath := dev }
  if env.checkFME dev then
    match fme.updateProperties env with
    | (some e, _, t) => (Except.error e, t)
    | (none, f1, t) => (Except.ok f1, t)
  else (Except.error ⟨"checkPCIDeviceType failed"⟩, [])

/-- Events observable at Close time. -/
inductive CloseEvent where
  | fmeClose (dev : String)
deriving DecidableEq, Repr

/-- IntelFpgaPort represents an Intel FPGA Port device.  `FME` is the
lazily discovered owning-FME association. -/
structure IntelFpgaPort where
  FME : Option IntelFpgaFME := none
  DevPath : String := ""
  SysFsPath : String := ""
  Name : String := ""
  PCIDevice : Option PCIDevice := none
  Dev : String := ""
  AFUID : String := ""
  ID : String := ""
deriving DecidableEq, Repr

/-- Port Close (src lines 81-87): if an FME was resolved its Close runs
(via defer, result discarded); the method itself returns nil and mutates
nothing. -/
def IntelFpgaPort.Close (f : IntelFpgaPort) : Option GoError × List CloseEvent :=
  match f.FME with
  | some fme => (none, [CloseEvent.fmeClose fme.DevPath])
  | none => (none, [])

/-- GetDevPath returns the path to the device node. -/
def IntelFpgaPort.GetDevPath (f : IntelFpgaPort) : String := f.DevPath

/-- Port GetSysFsPath: identical policy to the FME accessor. -/
def IntelFpgaPort.GetSysFsPath (f : IntelFpgaPort) (env : Env) :
    String × IntelFpgaPort × List Event :=
  if f.SysFsPath ≠ "" then (f.SysFsPath, f, [])
  else
    match env.findSysFsDevice f.DevPath with
    | none => ("", f, [Event.findSysFs f.DevPath])
    | some sysfs => (sysfs, { f with SysFsPath := sysfs }, [Event.findSysFs f.DevPath])

/-- Port GetName: identical policy to the FME accessor. -/
def IntelFpgaPort.GetName (f : IntelFpgaPort) (env : Env) :
    String × IntelFpgaPort × List Event :=
  if f.Name ≠ "" then (f.Name, f, [])
  else
    let r := f.GetSysFsPath env
    (filepathBase r.1, { r.2.1 with Name := filepathBase r.1 }, r.2.2)

/-- Port GetPCIDevice: identical policy to the FME accessor. -/
def IntelFpgaPort.GetPCIDevice (f : IntelFpgaPort) (env : Env) :
    Except GoError PCIDev × IntelFpgaPort × List Event :=
  match f.PCIDevice with
  | some pci => (Except.ok pci, f, [])
  | none =>
    let r := f.GetSysFsPath env
    match env.newPCIDevice r.1 with
    | none => (Except.error ⟨"NewPCIDevice failed"⟩, r.2.1, r.2.2 ++ [Event.newPCI r.1])
    | some pci =>
      (Except.ok pci, { r.2.1 with PCIDevice := some pci }, r.2.2 ++ [Event.newPCI r.1])

/-- The three Port attribute files read by `updateProperties`. -/
def portAttrNames : List String := ["afu_id", "dev", "id"]

/-- Port updateProperties: reads the Port attribute set directly under its
sysfs directory. -/
def IntelFpgaPort.updateProperties (f : IntelFpgaPort) (env : Env) :
    Option GoError × IntelFpgaPort × List Event :=
  let r := f.GetSysFsPath env
  match readFilesInDirectory env r.1 portAttrNames with
  | (none, t2) => (some ⟨"readFilesInDirectory failed"⟩, r.2.1, r.2.2 ++ t2)
  | (some m, t2) =>
    (none,
      { r.2.1 with AFUID := m "afu_id", Dev := m "dev", ID := m "id" },
      r.2.2 ++ t2)

/-- GetFME (src lines 404-440): returns the cached FME if resolved;
otherwise resolves the Port's PCI device, switches to its physical-function
ancestor when present, reads the `dev` identifier under that function's FME
glob subtree, resolves the real device node under /dev/char by symlink
evaluation, opens an FME there and caches it. -/
def IntelFpgaPort.GetFME (f : IntelFpgaPort) (env : Env) :
    Except GoError IntelFpgaFME × IntelFpgaPort × List Event :=
  match f.FME with
  | some fme => (Except.ok fme, f, [])
  | none =>
    match f.GetPCIDevice env with
    | (Except.error e, f1, t) => (Except.error e, f1, t)
    | (Except.ok pci0, f1, t) =>
      let sysfs :=
        match pci0.PhysFn with
        | some pf => pf.SysFsPath
        | none => pci0.SysFsPath
      let dir := filepathJoin sysfs intelFpgaFmeGlobPCI
      match readFilesInDirectory env dir ["dev"] with
      | (none, t2) => (Except.error ⟨"readFilesInDirectory failed"⟩, f1, t ++ t2)
      | (some m, t2) =>
        let link := filepathJoin "/dev/char" (m "dev")
        match env.evalSymlinks link with
        | none =>
          (Except.error ⟨"EvalSymlinks failed"⟩, f1, t ++ t2 ++ [Event.evalSym link])
        | some realDev =>
          match NewIntelFpgaFME env realDev with
          | (Except.error e, t3) =>
            (Except.error e, f1, t ++ t2 ++ [Event.evalSym link] ++ t3)
          | (Except.ok fme, t3) =>
            (Except.ok fme, { f1 with FME := some fme },
              t ++ t2 ++ [Event.evalSym link] ++ t3)

/-- GetPortID: populates the attribute set if `ID` is unset (returning
MaxUint32 with the error on a failed read), then parses the stored id. -/
def IntelFpgaPort.GetPortID (f : IntelFpgaPort) (env : Env) :
    (Nat × Option GoError) × IntelFpgaPort × List Event :=
  let step :=
    if f.ID = "" then
      let u := f.updateProperties env
      (u.1, u.2.1, u.2.2)
    else ((none : Option GoError), f, ([] : List Event))
  match step with
  | (some e, f1, t) => ((maxUint32, some e), f1, t)
  | (none, f1, t) =>
    let p := goParseUint f1.ID 32
    ((uint32cast p.1, p.2), f1, t)

/-- GetAcceleratorTypeUUID: always refreshes the attribute set; "" when the
read fails or the AFU id is empty. -/
def IntelFpgaPort.GetAcceleratorTypeUUID (f : IntelFpgaPort) (env : Env) :
    String × IntelFpgaPort × List Event :=
  match f.updateProperties env with
  | (some _, f1, t) => ("", f1, t)
  | (none, f1, t) => (if f1.AFUID = "" then "" else f1.AFUID, f1, t)

/-- Port GetInterfaceUUID: delegates to the resolved FME (whose Close is a
no-op); mutations through the shared FME pointer update the cache. -/
def IntelFpgaPort.GetInterfaceUUID (f : IntelFpgaPort) (env : Env) :
    String × IntelFpgaPort × List Event :=
  match f.GetFME env with
  | (Except.error _, f1, t) => ("", f1, t)
  | (Except.ok fme, f1, t) =>
    let r := fme.GetInterfaceUUID env
    (r.1, { f1 with FME := some r.2.1 }, t ++ r.2.2)

/-- Port PortReset: zero-payload ioctl, argument is the literal 0. -/
def IntelFpgaPort.PortReset (f : IntelFpgaPort) (env : Env) :
    Option GoError × List Event :=
  let r := ioctlDev env f.DevPath IoctlCmd.FPGA_PORT_RESET IoctlArg.nullArg
  (r.1.2, r.2)

/-- Decoded result of PortGetInfo. -/
structure PortInfo where
  Flags : Nat
  Regions : Nat
  Umsgs : Nat
deriving DecidableEq, Repr

/-- PortGetInfo: sends the size-header-only info request; on success the
driver-filled fields are decoded into `PortInfo`. -/
def IntelFpgaPort.PortGetInfo (f : IntelFpgaPort) (env : Env) :
    (PortInfo × Option GoError) × List Event :=
  let value : IntelFpgaPortInfo :=
    { Argsz := uint32cast sizeofIntelFpgaPortInfo, Flags := 0, Regions := 0, Umsgs := 0 }
  let r := ioctlDev env f.DevPath IoctlCmd.FPGA_PORT_GET_INFO (IoctlArg.portInfo value)
  match r.1.2 with
  | none =>
    let o := env.portInfoOut f.DevPath
    (({ Flags := o.1, Regions := o.2.1, Umsgs := o.2.2 }, none), r.2)
  | some e => (({ Flags := 0, Regions := 0, Umsgs := 0 }, some e), r.2)

/-- Decoded result of PortGetRegionInfo. -/
structure PortRegionInfo where
  Flags : Nat
  Index : Nat
  Offset : Nat
  Size : Nat
deriving DecidableEq, Repr

/-- PortGetRegionInfo: sends the region request with the caller's index; on
success the driver-filled fields are decoded into `PortRegionInfo`. -/
def IntelFpgaPort.PortGetRegionInfo (f : IntelFpgaPort) (env : Env) (index : Nat) :
    (PortRegionInfo × Option GoError) × List Event :=
  let value : IntelFpgaPortRegionInfo :=
    { Argsz := uint32cast sizeofIntelFpgaPortRegionInfo, Flags := 0
      Index := uint32cast index, Offset := 0, Size := 0 }
  let r := ioctlDev env f.DevPath IoctlCmd.FPGA_PORT_GET_REGION_INFO
    (IoctlArg.portRegionInfo value)
  match r.1.2 with
  | none =>
    let o := env.regionInfoOut f.DevPath index
    (({ Flags := o.1, Index := o.2.1, Offset := o.2.2.1, Size := o.2.2.2 }, none), r.2)
  | some e => (({ Flags := 0, Index := 0, Offset := 0, Size := 0 }, some e), r.2)

/-- Port GetAPIVersion delegates to the common helper on its own handle. -/
def IntelFpgaPort.GetAPIVersion (f : IntelFpgaPort) (env : Env) :
    (Int × Option GoError) × List Event :=
  commonIntelFpgaGetAPIVersion env f.DevPath

/-- Port CheckExtension delegates to the common helper on its own handle. -/
def IntelFpgaPort.CheckExtension (f : IntelFpgaPort) (env : Env) :
    (Int × Option GoError) × List Event :=
  commonIntelFpgaCheckExtension env f.DevPath

/-- NewIntelFpgaPort: type-checks the device path, then reads the Port
attribute set; either failure aborts the construction. -/
def NewIntelFpgaPort (env : Env) (dev : String) :
    Except GoError IntelFpgaPort × List Event :=
  let port : IntelFpgaPort := { DevPath := dev }
  if env.checkPort dev then
    match port.updateProperties env with
    | (some e, _, t) => (Except.error e, t)
    | (none, p1, t) => (Except.ok p1, t)
  else (Except.error ⟨"checkPCIDeviceType failed"⟩, [])

/-- The steps of the hardware-mutating reconfiguration sequence. -/
inductive PRStep where
  | release
  | pr
  | assign
deriving DecidableEq, Repr

/-- How a reconfiguration run failed: before the sequence (FME or port-id
resolution) or at a named step, carrying that step's error. -/
inductive PRFailure where
  | resolve (e : GoError)
  | atStep (s : PRStep) (e : GoError)
deriving DecidableEq, Repr

/-- Modelled from the spec: `genericPortPR` (the reconfiguration
orchestrator, outside the sources shown) resolves the Port's owning FME and
port id; in dry-run mode it stops after this validation without issuing any
mutating ioctl; otherwise it runs release, then PR, then assign, aborting
at the first failing step and reporting that step.  `bitstream`/`addr` are
the raw payload bytes and base address handed over by the external
bitstream parser. -/
def genericPortPR (env : Env) (p : IntelFpgaPort) (bitstream : List Nat)
    (addr : Nat) (dryRun : Bool) :
    GoOutcome (Option PRFailure) × IntelFpgaPort × List Event :=
  match p.GetFME env with
  | (Except.error e, p1, t) => (GoOutcome.ok (some (PRFailure.resolve e)), p1, t)
  | (Except.ok fme, p1, t) =>
    match p1.GetPortID env with
    | ((_, some e), p2, t1) =>
      (GoOutcome.ok (some (PRFailure.resolve e)), p2, t ++ t1)
    | ((portId, none), p2, t1) =>
      if dryRun then (GoOutcome.ok none, p2, t ++ t1)
      else
        let rel := fme.PortRelease env portId
        match rel.1 with
        | some e =>
          (GoOutcome.ok (some (PRFailure.atStep PRStep.release e)), p2, t ++ t1 ++ rel.2)
        | none =>
          let prr := fme.PortPR env portId bitstream addr
          match prr.1 with
          | GoOutcome.panicked m =>
            (GoOutcome.panicked m, p2, t ++ t1 ++ rel.2 ++ prr.2)
          | GoOutcome.ok (some e) =>
            (GoOutcome.ok (some (PRFailure.atStep PRStep.pr e)), p2,
              t ++ t1 ++ rel.2 ++ prr.2)
          | GoOutcome.ok none =>
            let asn := fme.PortAssign env portId
            match asn.1 with
            | some e =>
              (GoOutcome.ok (some (PRFailure.atStep PRStep.assign e)), p2,
                t ++ t1 ++ rel.2 ++ prr.2 ++ asn.2)
            | none => (GoOutcome.ok none, p2, t ++ t1 ++ rel.2 ++ prr.2 ++ asn.2)

/-- Port PR delegates to the generic reconfiguration orchestrator. -/
def IntelFpgaPort.PR (f : IntelFpgaPort) (env : Env) (bitstream : List Nat)
    (addr : Nat) (dryRun : Bool) :
    GoOutcome (Option PRFailure) × IntelFpgaPort × List Event :=
  genericPortPR env f bitstream addr dryRun

/-- Whether a trace contains a sysfs attribute-file read. -/
def hasReadEvent (t : List Event) : Bool :=
  t.any fun e =>
    match e with
    | Event.readDir _ _ => true
    | _ => false

/-- Whether an ioctl argument is a request structure whose leading
argument-size header equals that structure's exact byte size. -/
def IoctlArg.isSizedStruct : IoctlArg → Bool
  | IoctlArg.nullArg => false
  | IoctlArg.fmePortPR v => v.Argsz == uint32cast sizeofIntelFpgaFmePortPR
  | IoctlArg.fmePortRelease v => v.Argsz == uint32cast sizeofIntelFpgaFmePortRelease
  | IoctlArg.fmePortAssign v => v.Argsz == uint32cast sizeofIntelFpgaFmePortAssign
  | IoctlArg.portInfo v => v.Argsz == uint32cast sizeofIntelFpgaPortInfo
  | IoctlArg.portRegionInfo v => v.Argsz == uint32cast sizeofIntelFpgaPortRegionInfo

/-- Every ioctl event in the trace carries a correctly sized request
structure (non-ioctl events pass trivially). -/
def eventArgsSized (e : Event) : Bool :=
  match e with
  | Event.ioctl _ _ arg => arg.isSizedStruct
  | _ => true

/-- The opcodes of the three hardware-mutating PR-sequence ioctls appearing
in a trace, in order. -/
def mutatingIoctls (t : List Event) : List IoctlCmd :=
  t.filterMap fun e =>
    match e with
    | Event.ioctl _ c _ =>
      if c = IoctlCmd.FPGA_FME_PORT_RELEASE ∨ c = IoctlCmd.FPGA_FME_PORT_PR
          ∨ c = IoctlCmd.FPGA_FME_PORT_ASSIGN then some c else none
    | _ => none

/-- The head surviving `dropWhile` falsifies the predicate. -/
theorem dropWhile_head_false (p : Char → Bool) :
    ∀ (l : List Char) (c : Char) (cs : List Char),
      l.dropWhile p = c :: cs → p c = false := by
  intro l
  induction l with
  | nil => intro c cs h; simp [List.dropWhile] at h
  | cons a as ih =>
    intro c cs h
    simp only [List.dropWhile] at h
    by_cases hp : p a = true
    · rw [hp] at h
      exact ih c cs h
    · rw [Bool.not_eq_true] at hp
      rw [hp] at h
      cases h
      exact hp

/-- `filepath.Base` never returns the empty string. -/
theorem filepathBase_ne_empty (s : String) : filepathBase s ≠ "" := by
  unfold filepathBase
  split
  · intro h
    exact absurd (congrArg String.data h) (by simp)
  · split
    · intro h
      exact absurd (congrArg String.data h) (by simp)
    · next c cs heq =>
      intro h
      have hl : ((c :: cs).takeWhile (fun x => x != '/')).reverse = [] :=
        congrArg String.data h
      have hc : (c == '/') = false :=
        dropWhile_head_false (fun x => x == '/') _ _ _ heq
      rw [List.reverse_eq_nil_iff, List.takeWhile_cons] at hl
      simp [hc] at hl
      simp [hl] at hc

/-- The parse loop never exceeds `maxVal` when started at or below it. -/
theorem goParseUintLoop_le (cs : List Char) (maxVal : Nat) :
    ∀ n, n ≤ maxVal → (goParseUintLoop cs maxVal n).1 ≤ maxVal := by
  induction cs with
  | nil => intro n h; simpa [goParseUintLoop] using h
  | cons c rest ih =>
    intro n h
    simp only [goParseUintLoop]
    cases hd : decDigitVal c with
    | none => simp
    | some d =>
      simp only
      by_cases hlt : maxVal < n * 10 + d
      · simp [hlt]
      · rw [if_neg hlt]
        exact ih _ (Nat.le_of_not_lt hlt)

/-- The value component of a u32 parse stays below `2 ^ 32`. -/
theorem goParseUint_fst_le (s : String) :
    (goParseUint s 32).1 ≤ 2 ^ 32 - 1 := by
  unfold goParseUint
  split
  · simp
  · exact goParseUintLoop_le _ _ 0 (by norm_num)

/-- The u32 cast is the identity on parse results. -/
theorem uint32cast_goParseUint (s : String) :
    uint32cast (goParseUint s 32).1 = (goParseUint s 32).1 :=
  Nat.mod_eq_of_lt (lt_of_le_of_lt (goParseUint_fst_le s) (by norm_num))

/-- A fresh FME handle on the canonical device node. -/
def fme0 : IntelFpgaFME := { DevPath := "/dev/intel-fpga-fme.0" }

/-- An environment in which every external lookup fails and every ioctl
succeeds with 0. -/
def env0 : Env where
  findSysFsDevice := fun _ => none
  newPCIDevice := fun _ => none
  readAttr := fun _ _ => none
  evalSymlinks := fun _ => none
  checkFME := fun _ => false
  checkPort := fun _ => false
  ioctl := fun _ _ _ => (0, none)
  portInfoOut := fun _ => (0, 0, 0)
  regionInfoOut := fun _ _ => (0, 0, 0, 0)

/-- A fresh Port handle on the canonical device node. -/
def port0 : IntelFpgaPort := { DevPath := "/dev/intel-fpga-port.0" }

/-- C1: `IntelFpgaFME.PortPR` has no zero-length guard, so a zero-length
bitstream makes the Go source evaluate `&bitstream[0]` on an empty slice,
which panics at run time before any ioctl is issued (the trace is empty);
no empty-payload error value is ever constructed or returned.  This
contradicts the specification, which requires the call to fail with the
empty-payload error before the ioctl. -/
theorem portPR_empty_bitstream_panics :
    IntelFpgaFME.PortPR fme0 env0 0 [] 0 =
      (GoOutcome.panicked "runtime error: index out of range", []) := rfl

/-- C2 fails as stated: GetAPIVersion issues its ioctl with the literal 0
as the argument — there is no request structure and hence no argument-size
header on this zero-payload request. -/
theorem getAPIVersion_request_not_sized :
    commonIntelFpgaGetAPIVersion env0 "/dev/intel-fpga-fme.0" =
      ((0, none),
        [Event.ioctl "/dev/intel-fpga-fme.0" IoctlCmd.FPGA_GET_API_VERSION
          IoctlArg.nullArg])
    ∧ IoctlArg.isSizedStruct IoctlArg.nullArg = false :=
  ⟨rfl, rfl⟩

/-- C2 (amended): every payload-carrying request (PortPR, PortRelease,
PortAssign, PortGetInfo, PortGetRegionInfo) is built with its
argument-size header set to the structure's exact byte size before the
call is made, while the zero-payload requests (GetAPIVersion,
CheckExtension, PortReset) pass the literal 0 and carry no structure. -/
theorem ioctl_requests_argsz_exact (env : Env) (f : IntelFpgaFME)
    (p : IntelFpgaPort) (port index addr : Nat) (bs : List Nat)
    (hbs : bs ≠ []) :
    (IntelFpgaFME.PortPR f env port bs addr).2.all eventArgsSized = true
    ∧ (IntelFpgaFME.PortRelease f env port).2.all eventArgsSized = true
    ∧ (IntelFpgaFME.PortAssign f env port).2.all eventArgsSized = true
    ∧ (IntelFpgaPort.PortGetInfo p env).2.all eventArgsSized = true
    ∧ (IntelFpgaPort.PortGetRegionInfo p env index).2.all eventArgsSized = true
    ∧ (commonIntelFpgaGetAPIVersion env f.DevPath).2 =
        [Event.ioctl f.DevPath IoctlCmd.FPGA_GET_API_VERSION IoctlArg.nullArg]
    ∧ (commonIntelFpgaCheckExtension env f.DevPath).2 =
        [Event.ioctl f.DevPath IoctlCmd.FPGA_CHECK_EXTENSION IoctlArg.nullArg]
    ∧ (IntelFpgaPort.PortReset p env).2 =
        [Event.ioctl p.DevPath IoctlCmd.FPGA_PORT_RESET IoctlArg.nullArg] := by
  refine ⟨?_, ?_, ?_, ?_, ?_, rfl, rfl, rfl⟩
  · rw [IntelFpgaFME.PortPR, if_neg hbs]
    simp [ioctlDev, eventArgsSized, IoctlArg.isSizedStruct]
  · simp [IntelFpgaFME.PortRelease, ioctlDev, eventArgsSized, IoctlArg.isSizedStruct]
  · simp [IntelFpgaFME.PortAssign, ioctlDev, eventArgsSized, IoctlArg.isSizedStruct]
  · rw [IntelFpgaPort.PortGetInfo]
    split <;>
      simp [ioctlDev, eventArgsSized, IoctlArg.isSizedStruct]
  · rw [IntelFpgaPort.PortGetRegionInfo]
    split <;>
      simp [ioctlDev, eventArgsSized, IoctlArg.isSizedStruct]

/-- Witness for `ioctl_requests_argsz_exact` at concrete inputs. -/
theorem ioctl_requests_argsz_exact_witness :
    (IntelFpgaFME.PortPR fme0 env0 0 [7] 4096).2.all eventArgsSized = true
    ∧ (IntelFpgaFME.PortRelease fme0 env0 0).2.all eventArgsSized = true
    ∧ (IntelFpgaFME.PortAssign fme0 env0 0).2.all eventArgsSized = true
    ∧ (IntelFpgaPort.PortGetInfo port0 env0).2.all eventArgsSized = true
    ∧ (IntelFpgaPort.PortGetRegionInfo port0 env0 1).2.all eventArgsSized = true
    ∧ (commonIntelFpgaGetAPIVersion env0 fme0.DevPath).2 =
        [Event.ioctl fme0.DevPath IoctlCmd.FPGA_GET_API_VERSION IoctlArg.nullArg]
    ∧ (commonIntelFpgaCheckExtension env0 fme0.DevPath).2 =
        [Event.ioctl fme0.DevPath IoctlCmd.FPGA_CHECK_EXTENSION IoctlArg.nullArg]
    ∧ (IntelFpgaPort.PortReset port0 env0).2 =
        [Event.ioctl port0.DevPath IoctlCmd.FPGA_PORT_RESET IoctlArg.nullArg] :=
  ioctl_requests_argsz_exact env0 fme0 port0 0 1 4096 [7] (by decide)

/-- C3 fails as stated: on an FME with no attribute fields populated,
GetBitstreamID returns without triggering any sysfs attribute read — its
trace is empty — so not every listed accessor performs a one-time read. -/
theorem not_every_unpopulated_accessor_reads :
    ¬ (∀ (f : IntelFpgaFME) (env : Env),
        f = { DevPath := f.DevPath } →
        hasReadEvent (IntelFpgaFME.GetInterfaceUUID f env).2.2 = true
        ∧ hasReadEvent (IntelFpgaFME.GetBitstreamID f).2.2 = true
        ∧ hasReadEvent (IntelFpgaFME.GetBitstreamMetadata f).2.2 = true
        ∧ hasReadEvent (IntelFpgaFME.GetSocketID f).2.2 = true
        ∧ hasReadEvent (IntelFpgaFME.GetPortsNum f env).2.2 = true) := by
  intro h
  have hb := (h fme0 env0 rfl).2.1
  simp [IntelFpgaFME.GetBitstreamID, hasReadEvent] at hb

/-- C3 (amended): GetInterfaceUUID and GetPortsNum trigger the one-time
attribute read when their field is unpopulated and return the sentinel
("" resp. -1) when that read fails; GetBitstreamID and GetBitstreamMetadata
return the stored field without any read; GetSocketID performs no read and
returns the unavailable error when its field is unset. -/
theorem fme_accessor_read_policy (f : IntelFpgaFME) (env : Env) :
    (f.CompatID = "" →
      (∀ e f1 t, f.updateProperties env = (some e, f1, t) →
        IntelFpgaFME.GetInterfaceUUID f env = ("", f1, t))
      ∧ (∀ f1 t, f.updateProperties env = (none, f1, t) →
        IntelFpgaFME.GetInterfaceUUID f env = (f1.CompatID, f1, t)))
    ∧ (f.PortsNum = "" →
      ∀ e f1 t, f.updateProperties env = (some e, f1, t) →
        IntelFpgaFME.GetPortsNum f env = (-1, f1, t))
    ∧ IntelFpgaFME.GetBitstreamID f = (f.BitstreamID, f, [])
    ∧ IntelFpgaFME.GetBitstreamMetadata f = (f.BitstreamMetadata, f, [])
    ∧ (f.SocketID = "" →
      IntelFpgaFME.GetSocketID f = ((maxUint32, some ⟨"n/a"⟩), f, [])) := by
  refine ⟨fun hc => ⟨fun e f1 t hu => ?_, fun f1 t hu => ?_⟩,
    fun hp e f1 t hu => ?_, rfl, rfl, fun hs => ?_⟩
  · rw [IntelFpgaFME.GetInterfaceUUID, if_pos hc, hu]
  · rw [IntelFpgaFME.GetInterfaceUUID, if_pos hc, hu]
  · simp only [IntelFpgaFME.GetPortsNum, if_pos hp, hu]
  · rw [IntelFpgaFME.GetSocketID, if_pos hs]

/-- Witness for `fme_accessor_read_policy`: on a fresh FME in an
environment whose resolution fails, the two reading accessors attempt the
read and return their sentinels. -/
theorem fme_accessor_read_policy_witness :
    IntelFpgaFME.GetInterfaceUUID fme0 env0 =
      ("", fme0, [Event.findSysFs "/dev/intel-fpga-fme.0", Event.newPCI ""])
    ∧ IntelFpgaFME.GetPortsNum fme0 env0 =
      (-1, fme0, [Event.findSysFs "/dev/intel-fpga-fme.0", Event.newPCI ""]) := by
  constructor
  · exact ((fme_accessor_read_policy fme0 env0).1 rfl).1
      ⟨"NewPCIDevice failed"⟩ fme0 _ rfl
  · exact (fme_accessor_read_policy fme0 env0).2.1 rfl
      ⟨"NewPCIDevice failed"⟩ fme0 _ rfl

/-- C4: with `socket_id` unset, GetSocketID returns MaxUint32 together with
the "n/a" error — never the numeric value zero — and a returned value of
zero only ever arises when the stored attribute string itself parses to
zero (with the parse error, if any, passed through alongside). -/
theorem getSocketID_never_silent_zero (f : IntelFpgaFME) :
    (f.SocketID = "" →
      IntelFpgaFME.GetSocketID f = ((maxUint32, some ⟨"n/a"⟩), f, [])
      ∧ maxUint32 ≠ 0)
    ∧ (∀ err, (IntelFpgaFME.GetSocketID f).1 = (0, err) →
      f.SocketID ≠ "" ∧ goParseUint f.SocketID 32 = (0, err)) := by
  constructor
  · intro hs
    exact ⟨by rw [IntelFpgaFME.GetSocketID, if_pos hs], by decide⟩
  · intro err h
    by_cases hs : f.SocketID = ""
    · rw [IntelFpgaFME.GetSocketID, if_pos hs] at h
      exfalso
      have h1 := congrArg Prod.fst h
      simp [maxUint32] at h1
    · refine ⟨hs, ?_⟩
      simp only [IntelFpgaFME.GetSocketID, if_neg hs] at h
      rw [Prod.ext_iff] at h
      obtain ⟨h1, h2⟩ := h
      rw [Prod.ext_iff]
      refine ⟨?_, h2⟩
      rw [uint32cast_goParseUint] at h1
      exact h1

/-- An FME whose socket attribute is the literal "0". -/
def fmeSock : IntelFpgaFME := { DevPath := "/dev/intel-fpga-fme.0", SocketID := "0" }

/-- Witness for `getSocketID_never_silent_zero`: the unset case produces
the error, and a returned zero comes from an attribute parsing to zero. -/
theorem getSocketID_never_silent_zero_witness :
    (IntelFpgaFME.GetSocketID fme0 = ((maxUint32, some ⟨"n/a"⟩), fme0, [])
      ∧ maxUint32 ≠ 0)
    ∧ (fmeSock.SocketID ≠ "" ∧ goParseUint fmeSock.SocketID 32 = (0, none)) := by
  constructor
  · exact (getSocketID_never_silent_zero fme0).1 rfl
  · exact (getSocketID_never_silent_zero fmeSock).2 none (by decide)

/-- C5: once the Port's FME and port id are resolved, a non-dry-run PR
issues release, then PR, then assign, in that exact order; a failure at
any step aborts the sequence and is reported with the step at which it
failed, and in particular a release failure means no further ioctl call
occurs. -/
theorem pr_sequence_order (env : Env) (p : IntelFpgaPort) (bs : List Nat)
    (addr : Nat) (fme : IntelFpgaFME) (pid : Nat)
    (hfme : p.FME = some fme) (hid : ¬ p.ID = "")
    (hparse : goParseUint p.ID 32 = (pid, none)) (hbs : bs ≠ []) :
    (∀ e, (fme.PortRelease env pid).1 = some e →
      genericPortPR env p bs addr false =
        (GoOutcome.ok (some (PRFailure.atStep PRStep.release e)), p,
          (fme.PortRelease env pid).2)
      ∧ mutatingIoctls (fme.PortRelease env pid).2 =
          [IoctlCmd.FPGA_FME_PORT_RELEASE])
    ∧ ((fme.PortRelease env pid).1 = none →
      ∀ e, (fme.PortPR env pid bs addr).1 = GoOutcome.ok (some e) →
      genericPortPR env p bs addr false =
        (GoOutcome.ok (some (PRFailure.atStep PRStep.pr e)), p,
          (fme.PortRelease env pid).2 ++ (fme.PortPR env pid bs addr).2)
      ∧ mutatingIoctls
          ((fme.PortRelease env pid).2 ++ (fme.PortPR env pid bs addr).2) =
          [IoctlCmd.FPGA_FME_PORT_RELEASE, IoctlCmd.FPGA_FME_PORT_PR])
    ∧ ((fme.PortRelease env pid).1 = none →
      (fme.PortPR env pid bs addr).1 = GoOutcome.ok none →
      ∀ e, (fme.PortAssign env pid).1 = some e →
      genericPortPR env p bs addr false =
        (GoOutcome.ok (some (PRFailure.atStep PRStep.assign e)), p,
          (fme.PortRelease env pid).2 ++ (fme.PortPR env pid bs addr).2
            ++ (fme.PortAssign env pid).2))
    ∧ ((fme.PortRelease env pid).1 = none →
      (fme.PortPR env pid bs addr).1 = GoOutcome.ok none →
      (fme.PortAssign env pid).1 = none →
      genericPortPR env p bs addr false =
        (GoOutcome.ok none, p,
          (fme.PortRelease env pid).2 ++ (fme.PortPR env pid bs addr).2
            ++ (fme.PortAssign env pid).2)
      ∧ mutatingIoctls
          ((fme.PortRelease env pid).2 ++ (fme.PortPR env pid bs addr).2
            ++ (fme.PortAssign env pid).2) =
          [IoctlCmd.FPGA_FME_PORT_RELEASE, IoctlCmd.FPGA_FME_PORT_PR,
            IoctlCmd.FPGA_FME_PORT_ASSIGN]) := by
  have hcast : uint32cast pid = pid := by
    have h := uint32cast_goParseUint p.ID
    rw [hparse] at h
    exact h
  have hget : p.GetFME env = (Except.ok fme, p, []) := by
    simp [IntelFpgaPort.GetFME, hfme]
  have hgid : p.GetPortID env = ((pid, none), p, []) := by
    simp only [IntelFpgaPort.GetPortID, if_neg hid]
    simp [hparse, hcast]
  refine ⟨?_, ?_, ?_, ?_⟩
  · intro e hrel
    constructor
    · simp [genericPortPR, hget, hgid, hrel]
    · simp [IntelFpgaFME.PortRelease, ioctlDev, mutatingIoctls]
  · intro hrel e hpr
    constructor
    · simp [genericPortPR, hget, hgid, hrel, hpr]
    · rw [IntelFpgaFME.PortPR, if_neg hbs]
      simp [IntelFpgaFME.PortRelease, ioctlDev, mutatingIoctls]
  · intro hrel hpr e hasn
    simp [genericPortPR, hget, hgid, hrel, hpr, hasn]
  · intro hrel hpr hasn
    constructor
    · simp [genericPortPR, hget, hgid, hrel, hpr, hasn]
    · rw [IntelFpgaFME.PortPR, if_neg hbs]
      simp [IntelFpgaFME.PortRelease, IntelFpgaFME.PortAssign, ioctlDev,
        mutatingIoctls]

/-- A Port whose FME association and port id are already resolved. -/
def portResolved : IntelFpgaPort :=
  { DevPath := "/dev/intel-fpga-port.0", FME := some fme0, ID := "0" }

/-- Witness for `pr_sequence_order`: with every driver call succeeding, the
non-dry-run sequence is exactly release, PR, assign. -/
theorem pr_sequence_order_witness :
    genericPortPR env0 portResolved [7] 4096 false =
      (GoOutcome.ok none, portResolved,
        (fme0.PortRelease env0 0).2 ++ (fme0.PortPR env0 0 [7] 4096).2
          ++ (fme0.PortAssign env0 0).2)
    ∧ mutatingIoctls
        ((fme0.PortRelease env0 0).2 ++ (fme0.PortPR env0 0 [7] 4096).2
          ++ (fme0.PortAssign env0 0).2) =
        [IoctlCmd.FPGA_FME_PORT_RELEASE, IoctlCmd.FPGA_FME_PORT_PR,
          IoctlCmd.FPGA_FME_PORT_ASSIGN] :=
  (pr_sequence_order env0 portResolved [7] 4096 fme0 0 rfl (by decide)
    (by decide) (by decide)).2.2.2 rfl rfl rfl

/-- C6: Port Close returns nil, closes the resolved FME exactly when one
was resolved, and on a Port that never resolved an FME performs no action
at all beyond its own (no-op) handle release. -/
theorem port_close_cascades_iff_resolved (p : IntelFpgaPort) :
    (IntelFpgaPort.Close p).1 = none
    ∧ ((IntelFpgaPort.Close p).2 ≠ [] ↔ p.FME.isSome = true)
    ∧ (p.FME = none → IntelFpgaPort.Close p = (none, []))
    ∧ (∀ fme, p.FME = some fme →
      IntelFpgaPort.Close p = (none, [CloseEvent.fmeClose fme.DevPath])) := by
  cases hf : p.FME <;>
    simp [IntelFpgaPort.Close, hf]

/-- Witness for `port_close_cascades_iff_resolved` on a Port with and a
Port without a resolved FME. -/
theorem port_close_cascades_iff_resolved_witness :
    IntelFpgaPort.Close port0 = (none, [])
    ∧ IntelFpgaPort.Close portResolved =
        (none, [CloseEvent.fmeClose "/dev/intel-fpga-fme.0"]) := by
  constructor
  · exact (port_close_cascades_iff_resolved port0).2.2.1 rfl
  · exact (port_close_cascades_iff_resolved portResolved).2.2.2 fme0 rfl

/-- C7: GetFME on a Port whose PCI device has a physical-function ancestor
anchors the FME lookup at the physical function's sysfs subtree (not the
virtual function's): it reads the `dev` identifier under that subtree's
FME glob, resolves the real device node by symlink evaluation under
/dev/char, opens an FME there and caches it on the Port. -/
theorem getFME_anchored_at_physfn (env : Env) (p : IntelFpgaPort)
    (pci : PCIDevice) (pf : PCIDevicePhysFn) (d rd : String)
    (fme : IntelFpgaFME) (t3 : List Event)
    (hfme : p.FME = none) (hpci : p.PCIDevice = some pci)
    (hpf : pci.PhysFn = some pf)
    (hdev : env.readAttr (filepathJoin pf.SysFsPath intelFpgaFmeGlobPCI) "dev"
      = some d)
    (hsym : env.evalSymlinks (filepathJoin "/dev/char" d) = some rd)
    (hnew : NewIntelFpgaFME env rd = (Except.ok fme, t3)) :
    IntelFpgaPort.GetFME p env =
      (Except.ok fme, { p with FME := some fme },
        [Event.readDir (filepathJoin pf.SysFsPath intelFpgaFmeGlobPCI) ["dev"],
          Event.evalSym (filepathJoin "/dev/char" d)] ++ t3) := by
  simp only [IntelFpgaPort.GetFME, hfme]
  simp only [IntelFpgaPort.GetPCIDevice, hpci]
  simp only [hpf]
  simp [readFilesInDirectory, hdev, hsym, hnew]

/-- Physical-function sysfs path used by the concrete environment. -/
def pfPath : String := "/sys/devices/pci0000:00/0000:00:02.0"

/-- Virtual-function sysfs path used by the concrete environment. -/
def vfPath : String := "/sys/devices/pci0000:00/0000:00:02.1"

/-- The physical-function descriptor. -/
def pfFn : PCIDevicePhysFn := { SysFsPath := pfPath }

/-- The virtual-function PCI device, pointing back to the physical one. -/
def vfPci : PCIDevice := { SysFsPath := vfPath, PhysFn := some pfFn }

/-- The physical-function PCI device (no further ancestor). -/
def pfPci : PCIDevice := { SysFsPath := pfPath, PhysFn := none }

/-- The FME attribute directory under the physical function's subtree. -/
def pfFmeDir : String := filepathJoin pfPath intelFpgaFmeGlobPCI

/-- A fully populated environment: the Port sits on a virtual function and
its physical function's FME subtree resolves to /dev/intel-fpga-fme.0. -/
def envFull : Env where
  findSysFsDevice := fun dev =>
    if dev = "/dev/intel-fpga-fme.0" then some "/sys/class/fpga/intel-fpga-fme.0"
    else if dev = "/dev/intel-fpga-port.0" then some "/sys/class/fpga/intel-fpga-port.0"
    else none
  newPCIDevice := fun s =>
    if s = "/sys/class/fpga/intel-fpga-fme.0" then some pfPci
    else if s = "/sys/class/fpga/intel-fpga-port.0" then some vfPci
    else none
  readAttr := fun dir name =>
    if dir = pfFmeDir then
      if name = "dev" then some "242:0"
      else if name = "bitstream_id" then some "0x123"
      else if name = "bitstream_metadata" then some "0x45"
      else if name = "ports_num" then some "1"
      else if name = "socket_id" then some "0"
      else if name = "pr/interface_id" then some "fme-if-uuid"
      else none
    else if dir = "/sys/class/fpga/intel-fpga-port.0" then
      if name = "afu_id" then some "d8424dc4"
      else if name = "dev" then some "242:1"
      else if name = "id" then some "0"
      else none
    else none
  evalSymlinks := fun s =>
    if s = filepathJoin "/dev/char" "242:0" then some "/dev/intel-fpga-fme.0"
    else none
  checkFME := fun _ => true
  checkPort := fun _ => true
  ioctl := fun _ _ _ => (0, none)
  portInfoOut := fun _ => (0, 0, 0)
  regionInfoOut := fun _ _ => (0, 0, 0, 0)

/-- The FME object produced by opening /dev/intel-fpga-fme.0 in `envFull`. -/
def fmeResolved : IntelFpgaFME :=
  { DevPath := "/dev/intel-fpga-fme.0"
    SysFsPath := "/sys/class/fpga/intel-fpga-fme.0"
    PCIDevice := some pfPci
    SocketID := "0"
    Dev := "242:0"
    CompatID := "fme-if-uuid"
    BitstreamID := "0x123"
    BitstreamMetadata := "0x45"
    PortsNum := "1" }

/-- A Port on the virtual function with its PCI device already resolved. -/
def portVF : IntelFpgaPort :=
  { DevPath := "/dev/intel-fpga-port.0", PCIDevice := some vfPci }

/-- Witness for `getFME_anchored_at_physfn`: in `envFull` the virtual
function's Port resolves its FME through the physical function's subtree. -/
theorem getFME_anchored_at_physfn_witness :
    IntelFpgaPort.GetFME portVF envFull =
      (Except.ok fmeResolved, { portVF with FME := some fmeResolved },
        [Event.readDir (filepathJoin pfPath intelFpgaFmeGlobPCI) ["dev"],
          Event.evalSym (filepathJoin "/dev/char" "242:0")]
          ++ [Event.findSysFs "/dev/intel-fpga-fme.0",
            Event.newPCI "/sys/class/fpga/intel-fpga-fme.0",
            Event.readDir pfFmeDir fmeAttrNames]) :=
  getFME_anchored_at_physfn envFull portVF vfPci pfFn "242:0"
    "/dev/intel-fpga-fme.0" fmeResolved
    [Event.findSysFs "/dev/intel-fpga-fme.0",
      Event.newPCI "/sys/class/fpga/intel-fpga-fme.0",
      Event.readDir pfFmeDir fmeAttrNames]
    rfl rfl rfl (by decide) (by decide) rfl

/-- C8: `SysFsPath`, `Name` and `PCIDevice` are memoized per object
instance: after any successful resolution, the next call to the accessor
returns the cached value with an empty trace (no re-resolution), whatever
environment it runs in; a Port's resolved FME is likewise reused for the
Port's remaining lifetime. -/
theorem resolved_fields_memoized (env env2 : Env) (f : IntelFpgaFME)
    (p : IntelFpgaPort) :
    (∀ r f1 t, IntelFpgaFME.GetSysFsPath f env = (r, f1, t) → r ≠ "" →
      IntelFpgaFME.GetSysFsPath f1 env2 = (r, f1, []))
    ∧ (∀ r f1 t, IntelFpgaFME.GetName f env = (r, f1, t) →
      IntelFpgaFME.GetName f1 env2 = (r, f1, []))
    ∧ (∀ pci f1 t, IntelFpgaFME.GetPCIDevice f env = (Except.ok pci, f1, t) →
      IntelFpgaFME.GetPCIDevice f1 env2 = (Except.ok pci, f1, []))
    ∧ (∀ r p1 t, IntelFpgaPort.GetSysFsPath p env = (r, p1, t) → r ≠ "" →
      IntelFpgaPort.GetSysFsPath p1 env2 = (r, p1, []))
    ∧ (∀ r p1 t, IntelFpgaPort.GetName p env = (r, p1, t) →
      IntelFpgaPort.GetName p1 env2 = (r, p1, []))
    ∧ (∀ pci p1 t, IntelFpgaPort.GetPCIDevice p env = (Except.ok pci, p1, t) →
      IntelFpgaPort.GetPCIDevice p1 env2 = (Except.ok pci, p1, []))
    ∧ (∀ fme p1 t, IntelFpgaPort.GetFME p env = (Except.ok fme, p1, t) →
      IntelFpgaPort.GetFME p1 env2 = (Except.ok fme, p1, [])) := by
  refine ⟨?_, ?_, ?_, ?_, ?_, ?_, ?_⟩
  · intro r f1 t h hr
    rw [IntelFpgaFME.GetSysFsPath] at h
    split at h
    · next hc =>
      simp only [Prod.mk.injEq] at h
      obtain ⟨h1, h2, _⟩ := h
      subst h1
      subst h2
      rw [IntelFpgaFME.GetSysFsPath, if_pos hc]
    · next hc =>
      cases hd : env.findSysFsDevice f.DevPath with
      | none =>
        rw [hd] at h
        simp only [Prod.mk.injEq] at h
        exact absurd h.1.symm hr
      | some s =>
        rw [hd] at h
        simp only [Prod.mk.injEq] at h
        obtain ⟨h1, h2, _⟩ := h
        subst h1
        subst h2
        rw [IntelFpgaFME.GetSysFsPath, if_pos (by simpa using hr)]
  · intro r f1 t h
    rw [IntelFpgaFME.GetName] at h
    split at h
    · next hc =>
      simp only [Prod.mk.injEq] at h
      obtain ⟨h1, h2, _⟩ := h
      subst h1
      subst h2
      rw [IntelFpgaFME.GetName, if_pos hc]
    · next hc =>
      simp only [Prod.mk.injEq] at h
      obtain ⟨h1, h2, _⟩ := h
      subst h1
      subst h2
      rw [IntelFpgaFME.GetName, if_pos (by simpa using filepathBase_ne_empty _)]
  · intro pci f1 t h
    rw [IntelFpgaFME.GetPCIDevice] at h
    cases hc : f.PCIDevice with
    | some pc =>
      rw [hc] at h
      simp only [Prod.mk.injEq, Except.ok.injEq] at h
      obtain ⟨h1, h2, _⟩ := h
      subst h1
      subst h2
      rw [IntelFpgaFME.GetPCIDevice, hc]
    | none =>
      rw [hc] at h
      simp only [] at h
      cases hd : env.newPCIDevice (f.GetSysFsPath env).1 with
      | none =>
        rw [hd] at h
        simp at h
      | some pc =>
        rw [hd] at h
        simp only [Prod.mk.injEq, Except.ok.injEq] at h
        obtain ⟨h1, h2, _⟩ := h
        subst h1
        subst h2
        simp [IntelFpgaFME.GetPCIDevice]
  · intro r p1 t h hr
    rw [IntelFpgaPort.GetSysFsPath] at h
    split at h
    · next hc =>
      simp only [Prod.mk.injEq] at h
      obtain ⟨h1, h2, _⟩ := h
      subst h1
      subst h2
      rw [IntelFpgaPort.GetSysFsPath, if_pos hc]
    · next hc =>
      cases hd : env.findSysFsDevice p.DevPath with
      | none =>
        rw [hd] at h
        simp only [Prod.mk.injEq] at h
        exact absurd h.1.symm hr
      | some s =>
        rw [hd] at h
        simp only [Prod.mk.injEq] at h
        obtain ⟨h1, h2, _⟩ := h
        subst h1
        subst h2
        rw [IntelFpgaPort.GetSysFsPath, if_pos (by simpa using hr)]
  · intro r p1 t h
    rw [IntelFpgaPort.GetName] at h
    split at h
    · next hc =>
      simp only [Prod.mk.injEq] at h
      obtain ⟨h1, h2, _⟩ := h
      subst h1
      subst h2
      rw [IntelFpgaPort.GetName, if_pos hc]
    · next hc =>
      simp only [Prod.mk.injEq] at h
      obtain ⟨h1, h2, _⟩ := h
      subst h1
      subst h2
      rw [IntelFpgaPort.GetName, if_pos (by simpa using filepathBase_ne_empty _)]
  · intro pci p1 t h
    rw [IntelFpgaPort.GetPCIDevice] at h
    cases hc : p.PCIDevice with
    | some pc =>
      rw [hc] at h
      simp only [Prod.mk.injEq, Except.ok.injEq] at h
      obtain ⟨h1, h2, _⟩ := h
      subst h1
      subst h2
      rw [IntelFpgaPort.GetPCIDevice, hc]
    | none =>
      rw [hc] at h
      simp only [] at h
      cases hd : env.newPCIDevice (p.GetSysFsPath env).1 with
      | none =>
        rw [hd] at h
        simp at h
      | some pc =>
        rw [hd] at h
        simp only [Prod.mk.injEq, Except.ok.injEq] at h
        obtain ⟨h1, h2, _⟩ := h
        subst h1
        subst h2
        simp [IntelFpgaPort.GetPCIDevice]
  · intro fme p1 t h
    rw [IntelFpgaPort.GetFME] at h
    cases hc : p.FME with
    | some fm =>
      rw [hc] at h
      simp only [Prod.mk.injEq, Except.ok.injEq] at h
      obtain ⟨h1, h2, _⟩ := h
      subst h1
      subst h2
      rw [IntelFpgaPort.GetFME, hc]
    | none =>
      rw [hc] at h
      simp only [] at h
      split at h
      · simp at h
      · try simp only [] at h
        repeat' split at h
        all_goals
          first
          | (simp at h
             done)
          | (simp only [Prod.mk.injEq, Except.ok.injEq] at h
             obtain ⟨h1, h2, _⟩ := h
             subst h1
             subst h2
             simp [IntelFpgaPort.GetFME])

/-- Witness for `resolved_fields_memoized`: a successfully resolved sysfs
path and a resolved FME association are returned from cache on the next
call, in a different environment, with no events. -/
theorem resolved_fields_memoized_witness :
    IntelFpgaFME.GetSysFsPath
        { fme0 with SysFsPath := "/sys/class/fpga/intel-fpga-fme.0" } env0 =
      ("/sys/class/fpga/intel-fpga-fme.0",
        { fme0 with SysFsPath := "/sys/class/fpga/intel-fpga-fme.0" }, [])
    ∧ IntelFpgaPort.GetFME { portVF with FME := some fmeResolved } env0 =
      (Except.ok fmeResolved, { portVF with FME := some fmeResolved }, []) := by
  constructor
  · exact (resolved_fields_memoized envFull env0 fme0 portVF).1
      "/sys/class/fpga/intel-fpga-fme.0"
      { fme0 with SysFsPath := "/sys/class/fpga/intel-fpga-fme.0" }
      [Event.findSysFs "/dev/intel-fpga-fme.0"] (by decide) (by decide)
  · exact (resolved_fields_memoized envFull env0 fme0 portVF).2.2.2.2.2.2
      fmeResolved { portVF with FME := some fmeResolved }
      ([Event.readDir (filepathJoin pfPath intelFpgaFmeGlobPCI) ["dev"],
        Event.evalSym (filepathJoin "/dev/char" "242:0")]
        ++ [Event.findSysFs "/dev/intel-fpga-fme.0",
          Event.newPCI "/sys/class/fpga/intel-fpga-fme.0",
          Event.readDir pfFmeDir fmeAttrNames]) rfl

/-- C9: the numeric accessors never silently turn a failed conversion into
zero: GetPortsNum yields the -1 sentinel whenever its stored attribute
fails to parse, GetSocketID and GetPortID surface the parse error, and any
non-error result is exactly what the stored attribute string parsed to. -/
theorem conversion_failures_reported (env : Env) (f : IntelFpgaFME)
    (p : IntelFpgaPort) :
    (¬ f.PortsNum = "" → (goParseUint f.PortsNum 32).2.isSome = true →
      (IntelFpgaFME.GetPortsNum f env).1 = -1)
    ∧ (∀ n f1 t, IntelFpgaFME.GetPortsNum f env = (n, f1, t) →
      n = -1 ∨ (0 ≤ n ∧ goParseUint f1.PortsNum 32 = (n.toNat, none)))
    ∧ (¬ f.SocketID = "" → (goParseUint f.SocketID 32).2.isSome = true →
      ((IntelFpgaFME.GetSocketID f).1.2).isSome = true)
    ∧ (∀ v err f1 t, IntelFpgaFME.GetSocketID f = ((v, err), f1, t) →
      err = none → goParseUint f.SocketID 32 = (v, none))
    ∧ (¬ p.ID = "" → (goParseUint p.ID 32).2.isSome = true →
      ((IntelFpgaPort.GetPortID p env).1.2).isSome = true)
    ∧ (∀ v err p1 t, IntelFpgaPort.GetPortID p env = ((v, err), p1, t) →
      err = none → goParseUint p1.ID 32 = (v, none)) := by
  refine ⟨?_, ?_, ?_, ?_, ?_, ?_⟩
  · intro hne hfail
    simp [IntelFpgaFME.GetPortsNum, hne, hfail]
  · intro n f1 t h
    rw [IntelFpgaFME.GetPortsNum] at h
    simp only [] at h
    split at h
    · simp only [Prod.mk.injEq] at h
      exact Or.inl h.1.symm
    · split at h
      · simp only [Prod.mk.injEq] at h
        exact Or.inl h.1.symm
      · next hps =>
        simp only [Prod.mk.injEq] at h
        obtain ⟨h1, h2, _⟩ := h
        subst h2
        right
        refine ⟨by rw [← h1]; exact Int.natCast_nonneg _, ?_⟩
        rw [Prod.ext_iff]
        refine ⟨?_, Option.not_isSome_iff_eq_none.mp hps⟩
        rw [← h1]
        simp
  · intro hs hfail
    rw [IntelFpgaFME.GetSocketID, if_neg hs]
    simpa using hfail
  · intro v err f1 t h herr
    subst herr
    rw [IntelFpgaFME.GetSocketID] at h
    split at h
    · simp at h
    · simp only [Prod.mk.injEq] at h
      obtain ⟨⟨h1, h2⟩, _, _⟩ := h
      rw [Prod.ext_iff]
      exact ⟨by rw [← h1, uint32cast_goParseUint], h2⟩
  · intro hne hfail
    simp [IntelFpgaPort.GetPortID, hne, hfail]
  · intro v err p1 t h herr
    subst herr
    rw [IntelFpgaPort.GetPortID] at h
    simp only [] at h
    split at h
    · simp at h
    · simp only [Prod.mk.injEq] at h
      obtain ⟨⟨h1, h2⟩, h3, _⟩ := h
      subst h3
      rw [Prod.ext_iff]
      exact ⟨by rw [← h1, uint32cast_goParseUint], h2⟩

/-- An FME whose stored numeric attributes do not parse. -/
def fmeBad : IntelFpgaFME :=
  { DevPath := "/dev/intel-fpga-fme.0", PortsNum := "bogus", SocketID := "bogus" }

/-- A Port whose stored id attribute does not parse. -/
def portBad : IntelFpgaPort := { DevPath := "/dev/intel-fpga-port.0", ID := "bogus" }

/-- Witness for `conversion_failures_reported`: unparsable attributes give
the -1 sentinel or an error, and a parsed zero comes from the string. -/
theorem conversion_failures_reported_witness :
    (IntelFpgaFME.GetPortsNum fmeBad env0).1 = -1
    ∧ ((IntelFpgaFME.GetSocketID fmeBad).1.2).isSome = true
    ∧ ((IntelFpgaPort.GetPortID portBad env0).1.2).isSome = true
    ∧ goParseUint fmeSock.SocketID 32 = (0, none) := by
  have h := conversion_failures_reported env0 fmeBad portBad
  refine ⟨h.1 (by decide) (by decide), h.2.2.1 (by decide) (by decide),
    h.2.2.2.2.1 (by decide) (by decide), ?_⟩
  exact (conversion_failures_reported env0 fmeSock portBad).2.2.2.1 0 none
    fmeSock [] (by decide) rfl

/-- `filepath.Base` of the empty string is ".". -/
theorem filepathBase_empty : filepathBase "" = "." := rfl

/-- C10: when sysfs resolution fails on the first GetName call (GetSysFsPath
yields ""), GetName returns "." — the path basename of the empty string —
and memoizes it, so every later call returns "." in any environment, even
one where resolution would now succeed; the failure is never surfaced as an
error or an empty name (GetName never returns ""). -/
theorem getName_memoizes_dot_on_failure (env env2 : Env) (f : IntelFpgaFME)
    (p : IntelFpgaPort)
    (hfn : f.Name = "") (hfs : f.SysFsPath = "")
    (hff : env.findSysFsDevice f.DevPath = none)
    (hpn : p.Name = "") (hps : p.SysFsPath = "")
    (hpf : env.findSysFsDevice p.DevPath = none) :
    filepathBase "" = "."
    ∧ IntelFpgaFME.GetName f env =
        (".", { f with Name := "." }, [Event.findSysFs f.DevPath])
    ∧ IntelFpgaFME.GetName { f with Name := "." } env2 =
        (".", { f with Name := "." }, [])
    ∧ IntelFpgaPort.GetName p env =
        (".", { p with Name := "." }, [Event.findSysFs p.DevPath])
    ∧ IntelFpgaPort.GetName { p with Name := "." } env2 =
        (".", { p with Name := "." }, [])
    ∧ (∀ (g : IntelFpgaFME) (env3 : Env), (IntelFpgaFME.GetName g env3).1 ≠ "")
    ∧ (∀ (q : IntelFpgaPort) (env3 : Env), (IntelFpgaPort.GetName q env3).1 ≠ "") := by
  refine ⟨rfl, ?_, ?_, ?_, ?_, ?_, ?_⟩
  · simp [IntelFpgaFME.GetName, IntelFpgaFME.GetSysFsPath, hfn, hfs, hff,
      filepathBase_empty]
  · simp [IntelFpgaFME.GetName]
  · simp [IntelFpgaPort.GetName, IntelFpgaPort.GetSysFsPath, hpn, hps, hpf,
      filepathBase_empty]
  · simp [IntelFpgaPort.GetName]
  · intro g env3
    rw [IntelFpgaFME.GetName]
    split
    · next hg => simpa using hg
    · simpa using filepathBase_ne_empty _
  · intro q env3
    rw [IntelFpgaPort.GetName]
    split
    · next hg => simpa using hg
    · simpa using filepathBase_ne_empty _

/-- Witness for `getName_memoizes_dot_on_failure` on fresh FME and Port
handles in an environment whose sysfs resolution fails, re-queried in one
where it would succeed. -/
theorem getName_memoizes_dot_on_failure_witness :
    filepathBase "" = "."
    ∧ IntelFpgaFME.GetName fme0 env0 =
        (".", { fme0 with Name := "." }, [Event.findSysFs fme0.DevPath])
    ∧ IntelFpgaFME.GetName { fme0 with Name := "." } envFull =
        (".", { fme0 with Name := "." }, [])
    ∧ IntelFpgaPort.GetName port0 env0 =
        (".", { port0 with Name := "." }, [Event.findSysFs port0.DevPath])
    ∧ IntelFpgaPort.GetName { port0 with Name := "." } envFull =
        (".", { port0 with Name := "." }, []) := by
  have h := getName_memoizes_dot_on_failure env0 envFull fme0 port0 rfl rfl rfl
    rfl rfl rfl
  exact ⟨h.1, h.2.1, h.2.2.1, h.2.2.2.1, h.2.2.2.2.1⟩
